import Mathlib

/-!
# Verification of the 3D Hat Try-On frame-streaming pipeline

Shallow embedding of the core streaming/channel/mapping logic of the
repository, together with proofs checking the natural-language design
specification against it.

Sources embedded:
* `src/frontend/src/components/HatTryOn.jsx` — the `HatTryOn` component
  (frame-processing loop, message-to-state effect) and, after the file
  separator, the `useWebSocket` hook (connect / disconnect / sendFrame /
  socket event handlers with exponential reconnect backoff).
* `src/unnamed/part_000` — the `HatScene` / `HatModel` Three.js components
  (pose-to-render-transform mapping inside `useFrame`).

Numbers appearing in pose arithmetic are modelled as rationals (the design
formulas are exact); times and close codes are naturals (milliseconds).
React `useState` setters are modelled as direct state updates and
`useRef` cells as record fields, so each handler becomes a pure function
from state to state.
-/

/-! ## Data model -/

/-- 3-vector of rational coordinates (positions and Euler rotations). -/
structure Vec3 where
  x : ℚ
  y : ℚ
  z : ℚ
deriving DecidableEq

/-- The `hat` payload of a server message: normalized position, rotation in
radians, a scale factor, and the (optional) model-type tag read by
`HatModel` (`hatPose.modelType`). -/
structure HatPose where
  position : Vec3
  rotation : Vec3
  scale : ℚ
  modelType : Option String
deriving DecidableEq

/-- A decoded server JSON message.  Fields are optional because
`JSON.parse` accepts objects missing them; a missing field reads as
`undefined` (here `none`) at the use sites. -/
structure ServerMsg where
  face_detected : Option Bool
  hat : Option HatPose
  error : Option String
deriving DecidableEq

/-- Outcome of `JSON.parse` on one inbound frame of text:
either it throws (undecodable JSON) or yields a `ServerMsg`. -/
inductive Inbound
  | malformed
  | parsed (m : ServerMsg)
deriving DecidableEq

/-- `WebSocket.readyState` of the single socket owned by the hook
(`opened` stands for the JS constant `OPEN`). -/
inductive ReadyState
  | connecting
  | opened
  | closing
  | closed
deriving DecidableEq

/-- The error surfaced through `setError`, by category (the code stores
human-readable strings; the categories are what the design talks about). -/
inductive WSErr
  | reconnecting (delay : Nat) (attempts : Nat)
  | terminalFailure
  | socketErr
  | createFailed
deriving DecidableEq

/-- State of the `useWebSocket` hook: the `useState` values
(`isConnected`, `isConnecting`, `error`, `lastMessage`) and the `useRef`
cells (`wsRef` as the socket's ready state or `none` when null,
`reconnectTimeoutRef` as the pending delay or `none`,
`reconnectAttemptsRef`). -/
structure WSState where
  isConnected : Bool
  isConnecting : Bool
  error : Option WSErr
  lastMessage : Option ServerMsg
  socketState : Option ReadyState
  reconnectTimer : Option Nat
  reconnectAttempts : Nat
deriving DecidableEq

/-! ## ChannelManager: the `useWebSocket` hook -/

/-- `const RECONNECT_DELAY = 3000;` -/
def RECONNECT_DELAY : Nat := 3000

/-- `const MAX_RECONNECT_ATTEMPTS = 5;` -/
def MAX_RECONNECT_ATTEMPTS : Nat := 5

/-- The reconnect decision taken by `ws.onclose` (HatTryOn.jsx lines
352-359): when the close code is not 1000 and the attempt counter is
below the cap, a retry is scheduled after `RECONNECT_DELAY * 2 ^ attempts`
milliseconds; otherwise nothing is scheduled. -/
def scheduleOnClose (code : Nat) (attempts : Nat) : Option Nat :=
  if code ≠ 1000 ∧ attempts < MAX_RECONNECT_ATTEMPTS then
    some (RECONNECT_DELAY * 2 ^ attempts)
  else
    none

/-- Delays produced by a run of consecutive abnormal closes (close code
1006), starting from the given attempt counter: each abnormal close
consults `scheduleOnClose`; when a retry is scheduled, its timer fires,
increments the counter (`reconnectAttemptsRef.current++`) and the next
connection again closes abnormally. -/
def abnormalCloseDelays : Nat → Nat → List Nat
  | 0, _ => []
  | n + 1, attempts =>
    match scheduleOnClose 1006 attempts with
    | some d => d :: abnormalCloseDelays n (attempts + 1)
    | none => []

/-- `connect` (lines 312-376): returns immediately when the current socket
is already `OPEN`; otherwise sets `isConnecting`, clears the error and
creates a fresh socket in the `CONNECTING` state.  Note that it touches
neither `reconnectTimer` nor `reconnectAttempts`. -/
def connect (s : WSState) : WSState :=
  if s.socketState = some ReadyState.opened then s
  else
    { s with isConnecting := true, error := none,
             socketState := some ReadyState.connecting }

/-- `ws.onopen` (lines 324-330): marks the channel connected, clears the
error and resets the attempt counter to 0. -/
def onOpen (s : WSState) : WSState :=
  { s with isConnected := true, isConnecting := false, error := none,
           reconnectAttempts := 0, socketState := some ReadyState.opened }

/-- `ws.onmessage` (lines 332-343): `JSON.parse` inside try/catch; on
success the message is stored via `setLastMessage`; on a parse failure the
handler only logs and changes nothing. -/
def onMessage (s : WSState) (i : Inbound) : WSState :=
  match i with
  | Inbound.malformed => s
  | Inbound.parsed m => { s with lastMessage := some m }

/-- `ws.onclose` (lines 345-363): drops the connected/connecting flags and
the socket; then, per `scheduleOnClose`, either arms the reconnect timer
with a "reconnecting" error, or (when the counter has reached the cap)
surfaces the terminal connectivity error, or (normal close below the cap)
leaves error and timer as they are. -/
def onClose (s : WSState) (code : Nat) : WSState :=
  let s1 := { s with isConnected := false, isConnecting := false,
                     socketState := none }
  match scheduleOnClose code s.reconnectAttempts with
  | some d =>
    { s1 with error := some (WSErr.reconnecting d s.reconnectAttempts),
              reconnectTimer := some d }
  | none =>
    if MAX_RECONNECT_ATTEMPTS ≤ s.reconnectAttempts then
      { s1 with error := some WSErr.terminalFailure }
    else s1

/-- The body of the `setTimeout` armed by `ws.onclose` (lines 356-359):
the timer is consumed, the attempt counter incremented, and `connect`
runs. -/
def timerFire (s : WSState) : WSState :=
  connect { s with reconnectTimer := none,
                   reconnectAttempts := s.reconnectAttempts + 1 }

/-- `disconnect` (lines 378-393): clears any pending reconnect timer,
closes the socket with code 1000 (`'Manual disconnect'`) when one exists,
nulls the socket, resets the flags and the attempt counter.  The second
component is the close code issued to the socket, if any. -/
def disconnect (s : WSState) : WSState × Option Nat :=
  ({ s with reconnectTimer := none,
            socketState := none,
            isConnected := false,
            isConnecting := false,
            error := none,
            reconnectAttempts := 0 },
   s.socketState.map fun _ => 1000)

/-- `sendFrame` (lines 395-409), synchronous part: when the socket is
`OPEN` it schedules the blob-to-buffer conversion (second component
`true`: the frame has been handed to the channel); when the socket is not
open and the hook is not already connecting it calls `connect` instead
("Auto-reconnect if disconnected"); otherwise nothing happens.  In no
branch are the bytes queued. -/
def sendFrame (s : WSState) : WSState × Bool :=
  if s.socketState = some ReadyState.opened then (s, true)
  else if s.isConnecting = false then (connect s, false)
  else (s, false)

/-- The completion of `imageData.arrayBuffer().then(...)` inside
`sendFrame` (lines 398-401): at resolution time the ready state is
re-checked and the buffer is written only when the socket is still
`OPEN`. -/
def arrayBufferResolved (sNow : WSState) : Bool :=
  sNow.socketState = some ReadyState.opened

/-- The whole `sendFrame` pipeline across its suspension point: `sStart`
is the channel state when `sendFrame` is invoked, `sNow` the state when
the conversion promise resolves; the result says whether
`wsRef.current.send(buffer)` runs. -/
def sendFramePipeline (sStart sNow : WSState) : Bool :=
  (sendFrame sStart).2 && arrayBufferResolved sNow

/-- Socket/hook events, dispatched to the handlers above. -/
inductive WSEvent
  | evConnect
  | evDisconnect
  | evOpen
  | evClose (code : Nat)
  | evTimerFire
  | evInbound (i : Inbound)
deriving DecidableEq

/-- One event step of the channel manager.  A `evTimerFire` on a state
with no armed timer is a no-op (a cleared `setTimeout` never fires). -/
def wsStep (s : WSState) : WSEvent → WSState
  | WSEvent.evConnect => connect s
  | WSEvent.evDisconnect => (disconnect s).1
  | WSEvent.evOpen => onOpen s
  | WSEvent.evClose code => onClose s code
  | WSEvent.evTimerFire => if s.reconnectTimer.isSome then timerFire s else s
  | WSEvent.evInbound i => onMessage s i

/-- Initial hook state: nothing connected, no socket, no timer, counter 0. -/
def initWSState : WSState :=
  { isConnected := false, isConnecting := false, error := none,
    lastMessage := none, socketState := none, reconnectTimer := none,
    reconnectAttempts := 0 }

/-! ## Claim C2: exponential reconnect backoff -/

/-- C2: for consecutive abnormal closes with the attempt counter starting
at 0, the scheduled delay before attempt `k` is `3000 * 2 ^ k` and only
exists for `k < 5`, so five abnormal closes yield exactly the delays
3000, 6000, 12000, 24000, 48000 ms, a sixth consecutive abnormal close
adds nothing, and once the counter stands at the cap no close (whatever
its code) schedules a retry. -/
theorem reconnect_backoff_exact :
    (∀ k : Nat, scheduleOnClose 1006 k =
      if k < 5 then some (3000 * 2 ^ k) else none)
    ∧ abnormalCloseDelays 5 0 = [3000, 6000, 12000, 24000, 48000]
    ∧ abnormalCloseDelays 6 0 = [3000, 6000, 12000, 24000, 48000]
    ∧ (∀ code : Nat, scheduleOnClose code 5 = none) := by
  refine ⟨?_, by decide, by decide, ?_⟩
  · intro k
    by_cases h : k < 5
    · simp [scheduleOnClose, MAX_RECONNECT_ATTEMPTS, RECONNECT_DELAY, h]
    · simp [scheduleOnClose, MAX_RECONNECT_ATTEMPTS, RECONNECT_DELAY, h]
  · intro code
    simp [scheduleOnClose, MAX_RECONNECT_ATTEMPTS]

/-! ## HatTryOn component state and the lastMessage effect -/

/-- Component-local state of `HatTryOn` driving the overlay: the
`faceDetected` and `hatPose` `useState` values (initially `false` and
`null`). -/
structure UIState where
  faceDetected : Bool
  hatPose : Option HatPose
deriving DecidableEq

/-- Initial `HatTryOn` state: `useState(false)` / `useState(null)`. -/
def initUIState : UIState :=
  { faceDetected := false, hatPose := none }

/-- The `lastMessage` effect (HatTryOn.jsx lines 86-96): on a new message,
`setFaceDetected(lastMessage.face_detected)` (an absent field is falsy)
and `setHatPose(lastMessage.hat)` when `face_detected && hat` are truthy,
else `setHatPose(null)`. -/
def applyMessage (_s : UIState) (m : ServerMsg) : UIState :=
  let fd := m.face_detected.getD false
  { faceDetected := fd,
    hatPose := if fd && m.hat.isSome then m.hat else none }

/-- The visibility flag the scene hands to the hat overlay:
`HatScene` renders `HatModelWithStatus ... visible={faceDetected}`
(src/unnamed/part_000 lines 306-310). -/
def overlayVisibleFlag (s : UIState) : Bool :=
  s.faceDetected

/-- One inbound socket frame as seen by the `HatTryOn` pipeline: a
malformed frame never reaches `setLastMessage`, so the effect does not
re-run and the component state is untouched; a parsed message runs the
`lastMessage` effect. -/
def inboundUIStep (s : UIState) (i : Inbound) : UIState :=
  match i with
  | Inbound.malformed => s
  | Inbound.parsed m => applyMessage s m

/-! ## PoseMapper: the `HatModel` useFrame body -/

/-- Render transform applied to the hat group each frame: `position` /
`rotation` / `scale` as set on `meshRef.current`, and the `visible`
flag. -/
structure RenderTransform where
  position : Vec3
  rotation : Vec3
  scale : ℚ
  visible : Bool
deriving DecidableEq

/-- JavaScript `s || dflt` on an optional string: `undefined` and the
empty string are falsy. -/
def jsStringOr (s : Option String) (dflt : String) : String :=
  match s with
  | none => dflt
  | some v => if v = "" then dflt else v

/-- The pose-to-transform computation of `HatModel`'s `useFrame`
(src/unnamed/part_000 lines 94-148), for a loaded model: coordinate
conversion `x = (px - 0.5) * 4`, `y = (py - 0.5) * 3`, the
`switch (modelType)` choosing `yOffset` and `scale` (with distinct
constants for GLB versus fallback geometry), `zPosition = max(z, 0)`,
rotation damped by `0.8` per axis, and `visible = true`. -/
def hatFrameUpdate (isGLBModel : Bool) (hatPose : HatPose) : RenderTransform :=
  let x := (hatPose.position.x - 1/2) * 4
  let y := (hatPose.position.y - 1/2) * 3
  let z := hatPose.position.z
  let modelType := jsStringOr hatPose.modelType "default"
  let p : ℚ × ℚ :=
    if isGLBModel then
      if modelType = "large_hat" then (-1, hatPose.scale * (8/10))
      else if modelType = "small_hat" then (-(2/10), hatPose.scale * (2/100))
      else (-(2/10), hatPose.scale * (5/10))
    else (-(3/10), hatPose.scale * (25/100))
  let zPosition := max z 0
  { position := ⟨x, y + p.1, zPosition⟩,
    rotation := ⟨hatPose.rotation.x * (8/10),
                 hatPose.rotation.y * (8/10),
                 hatPose.rotation.z * (8/10)⟩,
    scale := p.2,
    visible := true }

/-- Width of the video plane in scene units (spec: X spans -2..2). -/
def planeWidthUnits : ℚ := 4

/-- Height of the video plane in scene units (spec: Y spans -1.5..1.5). -/
def planeHeightUnits : ℚ := 3

/-- Per-axis rotation attenuation factor (spec default 0.8). -/
def dampingFactor : ℚ := 8/10

/-- A row of the offset/scale preset table from the spec's PoseMapper:
a vertical offset added to `y` and a multiplier applied to the message
scale. -/
structure HatPreset where
  yOffset : ℚ
  scaleMultiplier : ℚ
deriving DecidableEq

/-- The preset table selected by model kind and `modelType` tag, as the
spec describes it (table-driven offset and scale multiplier per asset). -/
def presetTable (isGLBModel : Bool) (modelType : String) : HatPreset :=
  if isGLBModel then
    if modelType = "large_hat" then ⟨-1, 8/10⟩
    else if modelType = "small_hat" then ⟨-(2/10), 2/100⟩
    else ⟨-(2/10), 5/10⟩
  else ⟨-(3/10), 25/100⟩

/-- The PoseMapper mapping written from the spec's words (§4.4 steps 2-5):
`x' = (position.x - 0.5) * planeWidthUnits`,
`y' = (position.y - 0.5) * planeHeightUnits` plus the preset's vertical
offset, `z' = max(position.z, 0)`, rotation damped per axis by
`dampingFactor` with no history, scale multiplied by the preset's
multiplier, `visible = true`. -/
def poseMapperSpec (isGLBModel : Bool) (m : HatPose) : RenderTransform :=
  let x' := (m.position.x - 1/2) * planeWidthUnits
  let y' := (m.position.y - 1/2) * planeHeightUnits
  let z' := max m.position.z 0
  let p := presetTable isGLBModel (jsStringOr m.modelType "default")
  { position := ⟨x', y' + p.yOffset, z'⟩,
    rotation := ⟨m.rotation.x * dampingFactor,
                 m.rotation.y * dampingFactor,
                 m.rotation.z * dampingFactor⟩,
    scale := m.scale * p.scaleMultiplier,
    visible := true }

/-! ## The frame-processing loop of `HatTryOn` -/

/-- Asynchronous state of the `processVideoFrame` loop (HatTryOn.jsx lines
41-71).  `isProcessing` is the live `useState` value written by
`setIsProcessing` (lines 51 and 69); `pendingCaptures` counts
`captureFrameAsBlob` calls whose promise has not resolved yet;
`pendingSends` counts frames that were handed to the channel
(`sendFrame(frameBlob)` was invoked and scheduled a conversion) but whose
send outcome — resolution or rejection of the `arrayBuffer().then`
chain inside `sendFrame` — has not been observed yet. -/
structure LoopState where
  isProcessing : Bool
  pendingCaptures : Nat
  pendingSends : Nat
deriving DecidableEq

/-- Events of the loop.  `tick ready` is one firing of the 50 ms
`setInterval` (`ready` bundles the `videoRef.current && isStreaming &&
isConnected` guard and the rate limiter's verdict); `captureDone
chanOpen` is the resolution of `captureFrameAsBlob` followed by the rest
of the handler — `sendFrame(frameBlob)` (which hands the frame to the
channel exactly when the socket is open) and the `finally` block clearing
`isProcessing`; `sendSettled` is the observation of one handed frame's
send outcome. -/
inductive LoopEvent
  | tick (ready : Bool)
  | captureDone (chanOpen : Bool)
  | sendSettled
deriving DecidableEq

/-- One step of the loop.  The interval armed by the effect at lines
74-83 (dependency array `[isStreaming, isConnected]` only) holds the
`processVideoFrame` closure from the render that armed it, so the
`isProcessing` read by the guard at line 42 is `capturedProcessing`, the
value that `useState` binding had at arming time — `setIsProcessing`
re-renders with a fresh closure but never updates the captured binding
the interval keeps calling.  The live `isProcessing` field is still
written (lines 51, 69) but never read by the guard.  `captureDone` runs
only while a capture is pending; `sendSettled` only while a handed frame
is unsettled. -/
def loopStep (capturedProcessing : Bool) (s : LoopState) :
    LoopEvent → LoopState
  | LoopEvent.tick ready =>
    if ready && !capturedProcessing then
      { s with isProcessing := true, pendingCaptures := s.pendingCaptures + 1 }
    else s
  | LoopEvent.captureDone chanOpen =>
    if 0 < s.pendingCaptures then
      { isProcessing := false,
        pendingCaptures := s.pendingCaptures - 1,
        pendingSends := if chanOpen then s.pendingSends + 1 else s.pendingSends }
    else s
  | LoopEvent.sendSettled =>
    if 0 < s.pendingSends then { s with pendingSends := s.pendingSends - 1 }
    else s

/-- Loop state at mount: flag clear, nothing pending. -/
def initLoopState : LoopState :=
  { isProcessing := false, pendingCaptures := 0, pendingSends := 0 }

/-! ## FrameSampler gate: rate limiter and tick guard -/

/-- Modelled from the spec: the `FrameRateLimiter` class of
`src/frontend/src/lib/frameCapture.js`, which is imported by
`HatTryOn.jsx` (line 6, constructed as `new FrameRateLimiter(20)`) but
whose source file is not part of the repository snapshot.  Per §4.3 of
the design, it allows a frame when the elapsed time since the last
allowed frame is at least `1 / targetRate` seconds, i.e.
`1000 / targetFPS` milliseconds, and remembers the time of the last
allowed frame. -/
structure FrameRateLimiter where
  targetFPS : Nat
  lastFrameTime : Nat
deriving DecidableEq

/-- Minimum inter-frame interval in milliseconds. -/
def frameInterval (fps : Nat) : Nat := 1000 / fps

/-- Modelled from the spec: `shouldProcessFrame` of `FrameRateLimiter`
(missing from the snapshot): returns whether the frame at time `now` is
allowed and the updated limiter (the last-allowed time advances exactly
on allowed frames). -/
def shouldProcessFrame (l : FrameRateLimiter) (now : Nat) :
    Bool × FrameRateLimiter :=
  if frameInterval l.targetFPS ≤ now - l.lastFrameTime then
    (true, { l with lastFrameTime := now })
  else (false, l)

/-- Inputs visible to one firing of `processVideoFrame` (lines 41-49).
The flag fields are the closure bindings the callback actually reads:
`streaming`, `connected` and `processingCaptured` are the `useState`
values of the render that armed the interval (the effect's dependency
array is `[isStreaming, isConnected]`, so within one armed interval those
two are the true values that armed it, while `processingCaptured` stays
frozen at its arming-time value — normally `false` — whatever
`setIsProcessing` writes later); `videoReady` reads the live
`videoRef`. -/
structure GateInput where
  now : Nat
  videoReady : Bool
  streaming : Bool
  connected : Bool
  processingCaptured : Bool
deriving DecidableEq

/-- The gate at the head of `processVideoFrame` (lines 42-49): the early
return when `!videoRef.current || !isStreaming || !isConnected ||
isProcessing` — where `isProcessing` is the stale captured binding, see
`GateInput` — then the rate limiter's `shouldProcessFrame`.  Returns
whether this tick starts a sample/send cycle, and the updated limiter. -/
def processTickAllowed (l : FrameRateLimiter) (i : GateInput) :
    Bool × FrameRateLimiter :=
  if !i.videoReady || !i.streaming || !i.connected || i.processingCaptured then
    (false, l)
  else shouldProcessFrame l i.now

/-- Times of the ticks accepted by the gate over a run of tick inputs,
threading the limiter state. -/
def acceptedTimes (l : FrameRateLimiter) : List GateInput → List Nat
  | [] => []
  | i :: rest =>
    match processTickAllowed l i with
    | (true, l2) => i.now :: acceptedTimes l2 rest
    | (false, l2) => acceptedTimes l2 rest

/-- Number of accepted times falling in the window `[t, t + 1000)`. -/
def countWindow (t : Nat) (as : List Nat) : Nat :=
  as.countP fun a => decide (t ≤ a) && decide (a < t + 1000)

/-- Successive elements keep a gap of at least `d`, starting at least `d`
above `low`. -/
def SepFrom (d : Nat) : Nat → List Nat → Prop
  | _, [] => True
  | low, a :: as => low + d ≤ a ∧ SepFrom d a as

/-! ## Concrete states used by counterexamples and witnesses -/

/-- A hook state with no socket and no connection attempt in progress. -/
def sClosedIdle : WSState := initWSState

/-- A hook state whose attempt counter sits at the cap (after five failed
reconnects) with no socket. -/
def sAtCap : WSState :=
  { initWSState with reconnectAttempts := 5,
                     error := some WSErr.terminalFailure }

/-- A hook state with an open socket. -/
def sOpenEx : WSState :=
  { initWSState with isConnected := true,
                     socketState := some ReadyState.opened }

/-- A concrete pose payload. -/
def poseEx : HatPose :=
  { position := ⟨1/2, 1/2, 0⟩, rotation := ⟨0, 0, 0⟩, scale := 1,
    modelType := none }

/-- A message reporting a detected face with pose `poseEx`. -/
def msgFaceEx : ServerMsg :=
  { face_detected := some true, hat := some poseEx, error := none }

/-- A message reporting no face (other fields present and arbitrary). -/
def msgNoFaceEx : ServerMsg :=
  { face_detected := some false, hat := some poseEx, error := some "e" }

/-- A message that parses as JSON but carries none of the required
fields (`\x7b\x7d`). -/
def msgEmptyEx : ServerMsg :=
  { face_detected := none, hat := none, error := none }

/-- Component state showing the hat (reached from `initUIState` by
`msgFaceEx`). -/
def sVisibleEx : UIState := applyMessage initUIState msgFaceEx

/-! ## Helper lemmas -/

/-- After folding the `lastMessage` effect over a non-empty message list,
`faceDetected` is determined by the last message alone. -/
theorem foldl_applyMessage_faceDetected (msgs : List ServerMsg)
    (m : ServerMsg) (h : msgs.getLast? = some m) (s : UIState) :
    (msgs.foldl applyMessage s).faceDetected = m.face_detected.getD false := by
  induction msgs generalizing s with
  | nil => simp at h
  | cons a rest ih =>
    cases rest with
    | nil =>
      simp only [List.getLast?_singleton, Option.some.injEq] at h
      subst h
      simp [applyMessage]
    | cons b l =>
      rw [List.getLast?_cons_cons] at h
      simpa using ih h (applyMessage s a)

/-- `countP` of a strict upper-bound predicate is monotone in the bound. -/
theorem countP_lt_mono (as : List Nat) (b b' : Nat) (h : b ≤ b') :
    (as.countP fun a => decide (a < b)) ≤ as.countP fun a => decide (a < b') := by
  apply List.countP_mono_left
  intro x _ hx
  simp only [decide_eq_true_eq] at hx ⊢
  omega

/-- Over a list whose entries start at least 50 above `low` and are
pairwise at least 50 apart, at most `n` entries lie below
`low + 50 * n + 50`. -/
theorem sepFrom_countP_lt (as : List Nat) :
    ∀ low n, SepFrom 50 low as →
      (as.countP fun a => decide (a < low + 50 * n + 50)) ≤ n := by
  induction as with
  | nil => intro low n _; simp
  | cons a rest ih =>
    intro low n hsep
    obtain ⟨h1, h2⟩ := hsep
    rw [List.countP_cons]
    by_cases ha : a < low + 50 * n + 50
    · have hn : 0 < n := by omega
      obtain ⟨m, rfl⟩ : ∃ m, n = m + 1 := ⟨n - 1, by omega⟩
      have step : (rest.countP fun x => decide (x < low + 50 * (m + 1) + 50)) ≤
          rest.countP fun x => decide (x < a + 50 * m + 50) := by
        apply countP_lt_mono
        omega
      have := ih a m h2
      simp only [ha, decide_True, if_true]
      omega
    · have step : (rest.countP fun x => decide (x < low + 50 * n + 50)) ≤
          rest.countP fun x => decide (x < a + 50 * n + 50) := by
        apply countP_lt_mono
        omega
      have := ih a n h2
      simp only [ha, decide_False, Bool.false_eq_true, if_false]
      omega

/-- Over a 50-separated list, any half-open window of length 1000 holds
at most 20 entries. -/
theorem sepFrom_countWindow (as : List Nat) :
    ∀ low, SepFrom 50 low as → ∀ t, countWindow t as ≤ 20 := by
  induction as with
  | nil => intro low _ t; simp [countWindow]
  | cons a rest ih =>
    intro low hsep t
    obtain ⟨h1, h2⟩ := hsep
    rw [countWindow, List.countP_cons]
    by_cases ha : (t ≤ a ∧ a < t + 1000)
    · have hwin : (rest.countP fun x =>
          decide (t ≤ x) && decide (x < t + 1000)) ≤
          rest.countP fun x => decide (x < a + 50 * 19 + 50) := by
        apply List.countP_mono_left
        intro x _ hx
        simp only [Bool.and_eq_true, decide_eq_true_eq] at hx ⊢
        omega
      have hb := sepFrom_countP_lt rest a 19 h2
      simp only [ha.1, ha.2, decide_True, Bool.and_self, if_true]
      omega
    · have hrest := ih a h2 t
      rw [countWindow] at hrest
      have : (decide (t ≤ a) && decide (a < t + 1000)) = false := by
        simp only [Bool.and_eq_false_iff, decide_eq_false_iff_not]
        omega
      simp only [this, Bool.false_eq_true, if_false]
      omega

/-- The times accepted by the gate, run with a 20 FPS limiter, are
50-separated above the limiter's last-allowed time. -/
theorem acceptedTimes_sepFrom (ticks : List GateInput) :
    ∀ l : FrameRateLimiter, l.targetFPS = 20 →
      SepFrom 50 l.lastFrameTime (acceptedTimes l ticks) := by
  induction ticks with
  | nil => intro l _; trivial
  | cons i rest ih =>
    intro l hl
    rw [acceptedTimes]
    rcases hacc : processTickAllowed l i with ⟨b, l2⟩
    cases b with
    | false =>
      have hsame : l2 = l := by
        rw [processTickAllowed] at hacc
        split at hacc
        · exact (Prod.mk.injEq .. ▸ hacc).2.symm ▸ rfl
        · rw [shouldProcessFrame] at hacc
          split at hacc
          · exact absurd (Prod.mk.injEq .. ▸ hacc).1 (by simp)
          · exact ((Prod.mk.injEq .. ▸ hacc).2).symm ▸ rfl
      simpa [hsame] using ih l hl
    | true =>
      have hint : frameInterval l.targetFPS ≤ i.now - l.lastFrameTime ∧
          l2 = { l with lastFrameTime := i.now } := by
        rw [processTickAllowed] at hacc
        split at hacc
        · exact absurd (Prod.mk.injEq .. ▸ hacc).1 (by simp)
        · rw [shouldProcessFrame] at hacc
          split at hacc
          · exact ⟨by assumption, ((Prod.mk.injEq .. ▸ hacc).2).symm⟩
          · exact absurd (Prod.mk.injEq .. ▸ hacc).1 (by simp)
      obtain ⟨hge, rfl⟩ := hint
      rw [hl] at hge
      have h50 : frameInterval 20 = 50 := by decide
      rw [h50] at hge
      refine ⟨by omega, ?_⟩
      have := ih { l with lastFrameTime := i.now } (by simpa using hl)
      simpa using this

/-- Stepping close-1000 and timer events never arms a reconnect timer:
a state with no pending timer keeps none. -/
theorem wsRun_timer_none (evs : List WSEvent) :
    ∀ s : WSState, s.reconnectTimer = none →
      (∀ e ∈ evs, e = WSEvent.evClose 1000 ∨ e = WSEvent.evTimerFire) →
      (evs.foldl wsStep s).reconnectTimer = none := by
  induction evs with
  | nil => intro s h _; simpa using h
  | cons e rest ih =>
    intro s h hall
    have he := hall e (by simp)
    have hstep : (wsStep s e).reconnectTimer = none := by
      rcases he with rfl | rfl
      · have hne : scheduleOnClose 1000 s.reconnectAttempts = none := by
          simp [scheduleOnClose]
        simp only [wsStep, onClose, hne]
        split <;> simpa using h
      · simp [wsStep, h]
    have hrest : ∀ e2 ∈ rest, e2 = WSEvent.evClose 1000 ∨ e2 = WSEvent.evTimerFire := by
      intro e2 he2
      exact hall e2 (by simp [he2])
    simpa using ih (wsStep s e) hstep hrest

/-! ## Claim theorems -/

/-- C1 (the code evaluated at the failing input): the mutual exclusion
the claim states does not hold.  With the interval armed at a render
where `isProcessing` was false (its closure capture is therefore `false`
for the interval's whole lifetime), (i) a tick sets the live flag, yet
(ii) a second tick with the first capture still unresolved is accepted
and leaves two capture cycles running concurrently, the live flag never
being consulted, and (iii) the interleaving tick / captureDone / tick /
captureDone hands two frames to the channel with neither send outcome
observed, because the `finally` block clears the flag as soon as the
un-awaited `sendFrame` returns. -/
theorem stale_flag_breaks_mutual_exclusion :
    (([LoopEvent.tick true].foldl (loopStep false)
        initLoopState).isProcessing = true) ∧
    (([LoopEvent.tick true, LoopEvent.tick true].foldl (loopStep false)
        initLoopState).pendingCaptures = 2) ∧
    (([LoopEvent.tick true, LoopEvent.captureDone true, LoopEvent.tick true,
       LoopEvent.captureDone true].foldl (loopStep false)
        initLoopState).pendingSends = 2) := by
  decide

/-- C6 counterexample: "no frame in flight" is not among the conditions
under which a tick is accepted.  After tick / captureDone exactly one
frame is in flight (handed to the channel, send outcome unobserved) and
no capture is pending; the next tick is nevertheless accepted and starts
a fresh capture cycle while that frame is still in flight. -/
theorem tick_accepted_while_frame_in_flight :
    (([LoopEvent.tick true, LoopEvent.captureDone true].foldl (loopStep false)
        initLoopState).pendingSends = 1) ∧
    (([LoopEvent.tick true, LoopEvent.captureDone true].foldl (loopStep false)
        initLoopState).pendingCaptures = 0) ∧
    (([LoopEvent.tick true, LoopEvent.captureDone true,
       LoopEvent.tick true].foldl (loopStep false)
        initLoopState).pendingSends = 1) ∧
    (([LoopEvent.tick true, LoopEvent.captureDone true,
       LoopEvent.tick true].foldl (loopStep false)
        initLoopState).pendingCaptures = 1) := by
  decide

/-- C3: in every state reachable from mount by a sequence of messages,
the overlay's visible flag is false when no message has arrived or the
latest message lacks a detected face; and applying any message whose
`face_detected` is false or absent yields visible false and a null hat
pose, whatever its other fields. -/
theorem overlay_hidden_without_face :
    (∀ msgs : List ServerMsg,
        msgs = [] ∨
          (∃ m, msgs.getLast? = some m ∧ m.face_detected.getD false = false) →
        overlayVisibleFlag (msgs.foldl applyMessage initUIState) = false)
    ∧ (∀ (s : UIState) (m : ServerMsg), m.face_detected.getD false = false →
        overlayVisibleFlag (applyMessage s m) = false ∧
          (applyMessage s m).hatPose = none) := by
  constructor
  · intro msgs h
    rcases h with rfl | ⟨m, hm, hf⟩
    · rfl
    · rw [overlayVisibleFlag,
        foldl_applyMessage_faceDetected msgs m hm initUIState, hf]
  · intro s m h
    refine ⟨?_, ?_⟩
    · rw [overlayVisibleFlag]
      simp [applyMessage, h]
    · simp [applyMessage, h]

/-- Witness for C3: concrete runs — a single no-face message from mount,
and an empty-fields message applied to a visible state. -/
theorem overlay_hidden_without_face_witness :
    overlayVisibleFlag ([msgNoFaceEx].foldl applyMessage initUIState) = false ∧
    overlayVisibleFlag (applyMessage sVisibleEx msgEmptyEx) = false := by
  exact ⟨overlay_hidden_without_face.1 [msgNoFaceEx]
      (Or.inr ⟨msgNoFaceEx, rfl, rfl⟩),
    (overlay_hidden_without_face.2 sVisibleEx msgEmptyEx rfl).1⟩

/-- C4: for every pose payload, the `useFrame` computation of `HatModel`
equals the spec's PoseMapper — `x = (px - 0.5) * planeWidthUnits`,
`y = (py - 0.5) * planeHeightUnits` plus the preset's vertical offset,
`z = max(pz, 0)`, rotation damped by `dampingFactor = 0.8` per axis with
no history, scale multiplied by the preset multiplier selected by
`modelType`, and `visible = true`. -/
theorem hat_frame_matches_spec :
    ∀ (isGLBModel : Bool) (m : HatPose),
      hatFrameUpdate isGLBModel m = poseMapperSpec isGLBModel m := by
  intro isGLB m
  cases isGLB <;>
    simp only [hatFrameUpdate, poseMapperSpec, presetTable, planeWidthUnits,
      planeHeightUnits, dampingFactor, Bool.false_eq_true, if_false, if_true] <;>
    split_ifs <;> rfl

/-- C5 counterexample: `sendFrame` on a closed, non-connecting channel is
not a no-op — it invokes `connect`, flipping `isConnecting` and creating
a fresh socket, so observable channel state changes. -/
theorem sendFrame_not_noop_when_closed :
    (sendFrame sClosedIdle).1.isConnecting = true ∧
    sClosedIdle.isConnecting = false ∧
    (sendFrame sClosedIdle).1.socketState = some ReadyState.connecting ∧
    sClosedIdle.socketState = none := by
  decide

/-- C5 (amended): while the channel is not open, `sendFrame` drops the
frame — it is never handed to the channel and never queued — but it is a
no-op only when a connection attempt is already in progress; otherwise it
triggers an auto-reconnect by calling `connect`. -/
theorem send_not_open_drops_frame :
    ∀ s : WSState, s.socketState ≠ some ReadyState.opened →
      (sendFrame s).2 = false ∧
      (s.isConnecting = true → sendFrame s = (s, false)) ∧
      (s.isConnecting = false → sendFrame s = (connect s, false)) := by
  intro s h
  rw [sendFrame, if_neg h]
  by_cases hc : s.isConnecting = false
  · simp [hc]
  · simp [hc]

/-- Witness for C5's amended theorem at the closed idle state. -/
theorem send_not_open_drops_frame_witness :
    (sendFrame sClosedIdle).2 = false ∧
    (sClosedIdle.isConnecting = true → sendFrame sClosedIdle = (sClosedIdle, false)) ∧
    (sClosedIdle.isConnecting = false →
      sendFrame sClosedIdle = (connect sClosedIdle, false)) :=
  send_not_open_drops_frame sClosedIdle (by decide)

/-- C6 (amended): a tick starts a sample/send cycle only when the guard's
bindings read connected, the closure-captured `isProcessing` reads false
and the rate limiter's minimum interval has elapsed — conditions that do
not include "no frame in flight", since the captured flag is frozen at
interval arming and the live flag is anyway cleared before the send
settles; and over every run of ticks the 20 FPS gate accepts at most 20
ticks in any window of one second, so the send rate never exceeds the
target. -/
theorem gate_conditions_and_rate_bound :
    (∀ (l : FrameRateLimiter) (i : GateInput),
        (processTickAllowed l i).1 = true →
        i.connected = true ∧ i.processingCaptured = false ∧
          frameInterval l.targetFPS ≤ i.now - l.lastFrameTime)
    ∧ (∀ (t0 : Nat) (ticks : List GateInput) (t : Nat),
        countWindow t (acceptedTimes ⟨20, t0⟩ ticks) ≤ 20) := by
  constructor
  · intro l i h
    rw [processTickAllowed] at h
    split at h
    · exact absurd h (by simp)
    · rename_i hg
      simp only [Bool.or_eq_true, Bool.not_eq_true', not_or,
        Bool.not_eq_false, Bool.not_eq_true] at hg
      rw [shouldProcessFrame] at h
      split at h
      · exact ⟨by tauto, by tauto, by assumption⟩
      · exact absurd h (by simp)
  · intro t0 ticks t
    exact sepFrom_countWindow (acceptedTimes ⟨20, t0⟩ ticks) t0
      (acceptedTimes_sepFrom ticks ⟨20, t0⟩ rfl) t

/-- Witness for C6's gate conditions at a concrete limiter and tick. -/
theorem gate_conditions_witness :
    (⟨100, true, true, true, false⟩ : GateInput).connected = true ∧
    (⟨100, true, true, true, false⟩ : GateInput).processingCaptured = false ∧
    frameInterval (⟨20, 0⟩ : FrameRateLimiter).targetFPS ≤
      (⟨100, true, true, true, false⟩ : GateInput).now -
        (⟨20, 0⟩ : FrameRateLimiter).lastFrameTime :=
  gate_conditions_and_rate_bound.1 ⟨20, 0⟩ ⟨100, true, true, true, false⟩
    (by decide)

/-- C7 counterexample: a fresh `connect` call on the terminal state (the
counter at the cap) leaves the attempt counter at 5 — it does not reset
it to 0. -/
theorem connect_keeps_attempt_counter :
    (connect sAtCap).reconnectAttempts = 5 ∧
    (connect sAtCap).reconnectAttempts ≠ 0 := by
  decide

/-- C7 (amended): once the counter reaches the cap, a close schedules no
retry and surfaces the terminal connectivity error; a fresh external
`connect` starts a new connection — resetting `isConnecting` and the
error but not the attempt counter; the counter is reset to 0 only by a
successful open or a manual disconnect. -/
theorem cap_is_terminal_until_reconnect :
    (∀ (s : WSState) (code : Nat),
        MAX_RECONNECT_ATTEMPTS ≤ s.reconnectAttempts →
        (onClose s code).reconnectTimer = s.reconnectTimer ∧
        (onClose s code).error = some WSErr.terminalFailure)
    ∧ (∀ s : WSState, s.socketState ≠ some ReadyState.opened →
        (connect s).isConnecting = true ∧ (connect s).error = none ∧
        (connect s).reconnectAttempts = s.reconnectAttempts ∧
        (connect s).socketState = some ReadyState.connecting)
    ∧ (∀ s : WSState, (onOpen s).reconnectAttempts = 0)
    ∧ (∀ s : WSState, (disconnect s).1.reconnectAttempts = 0) := by
  refine ⟨?_, ?_, fun s => rfl, fun s => rfl⟩
  · intro s code h
    have hnone : scheduleOnClose code s.reconnectAttempts = none := by
      rw [scheduleOnClose, if_neg]
      rintro ⟨_, hlt⟩
      omega
    simp only [onClose, hnone]
    rw [if_pos h]
    exact ⟨rfl, rfl⟩
  · intro s h
    rw [connect, if_neg h]
    exact ⟨rfl, rfl, rfl, rfl⟩

/-- Witness for C7's amended theorem: the capped state takes another
abnormal close without scheduling, and a fresh connect from the closed
idle state keeps the counter. -/
theorem cap_is_terminal_until_reconnect_witness :
    ((onClose sAtCap 1006).reconnectTimer = sAtCap.reconnectTimer ∧
      (onClose sAtCap 1006).error = some WSErr.terminalFailure) ∧
    ((connect sAtCap).isConnecting = true ∧ (connect sAtCap).error = none ∧
      (connect sAtCap).reconnectAttempts = sAtCap.reconnectAttempts ∧
      (connect sAtCap).socketState = some ReadyState.connecting) :=
  ⟨cap_is_terminal_until_reconnect.1 sAtCap 1006 (by decide),
   cap_is_terminal_until_reconnect.2.1 sAtCap (by decide)⟩

/-- C8: for every counter state, a manual `disconnect` cancels any pending
reconnect timer, resets the counter, issues close code 1000 exactly when a
socket exists; and from the post-disconnect state, any sequence made of
the resulting close-1000 callback and (cleared) timer firings never arms a
reconnect timer. -/
theorem manual_disconnect_never_reconnects :
    (∀ s : WSState,
        (disconnect s).1.reconnectTimer = none ∧
        (disconnect s).1.reconnectAttempts = 0 ∧
        (disconnect s).2 = s.socketState.map fun _ => 1000)
    ∧ (∀ (s : WSState) (evs : List WSEvent),
        (∀ e ∈ evs, e = WSEvent.evClose 1000 ∨ e = WSEvent.evTimerFire) →
        (evs.foldl wsStep (disconnect s).1).reconnectTimer = none) := by
  refine ⟨fun s => ⟨rfl, rfl, rfl⟩, ?_⟩
  intro s evs hall
  exact wsRun_timer_none evs (disconnect s).1 rfl hall

/-- Witness for C8: disconnect from an open socket, then the socket's own
close-1000 callback and a stray timer event. -/
theorem manual_disconnect_never_reconnects_witness :
    ([WSEvent.evClose 1000, WSEvent.evTimerFire].foldl wsStep
        (disconnect sOpenEx).1).reconnectTimer = none :=
  manual_disconnect_never_reconnects.2 sOpenEx
    [WSEvent.evClose 1000, WSEvent.evTimerFire] (by decide)

/-- C9 counterexample: a message that decodes as JSON but carries none of
the required fields is not dropped — applied to a state showing the hat,
it flips `faceDetected` to false and nulls the hat pose, changing the
previous render transform. -/
theorem empty_message_changes_transform :
    (inboundUIStep sVisibleEx (Inbound.parsed msgEmptyEx)).faceDetected = false ∧
    sVisibleEx.faceDetected = true ∧
    (inboundUIStep sVisibleEx (Inbound.parsed msgEmptyEx)).hatPose = none ∧
    sVisibleEx.hatPose = some poseEx :=
  ⟨rfl, rfl, rfl, rfl⟩

/-- C9 (amended): undecodable JSON is dropped silently at the protocol
boundary — `lastMessage` and the component state are unchanged — but a
decodable message missing its required fields is processed normally: a
missing `face_detected` reads as false, hiding the overlay instead of
retaining the previous transform. -/
theorem malformed_drop_vs_missing_fields :
    (∀ s : WSState, onMessage s Inbound.malformed = s)
    ∧ (∀ u : UIState, inboundUIStep u Inbound.malformed = u)
    ∧ (∀ (u : UIState) (m : ServerMsg), m.face_detected = none →
        (inboundUIStep u (Inbound.parsed m)).faceDetected = false ∧
        (inboundUIStep u (Inbound.parsed m)).hatPose = none) := by
  refine ⟨fun s => rfl, fun u => rfl, ?_⟩
  intro u m h
  exact ⟨by simp [inboundUIStep, applyMessage, h],
    by simp [inboundUIStep, applyMessage, h]⟩

/-- Witness for C9's amended theorem at the empty parsed message. -/
theorem malformed_drop_vs_missing_fields_witness :
    (inboundUIStep initUIState (Inbound.parsed msgEmptyEx)).faceDetected = false ∧
    (inboundUIStep initUIState (Inbound.parsed msgEmptyEx)).hatPose = none :=
  malformed_drop_vs_missing_fields.2.2 initUIState msgEmptyEx rfl

/-- C10: the `sendFrame` pipeline writes to the socket only when the
re-check after the asynchronous blob-to-buffer conversion still sees an
open socket; whenever the channel is no longer open at resolution time
the bytes are discarded. -/
theorem send_rechecks_open_after_conversion :
    (∀ sStart sNow : WSState, sendFramePipeline sStart sNow = true →
        sNow.socketState = some ReadyState.opened)
    ∧ (∀ sStart sNow : WSState,
        sNow.socketState ≠ some ReadyState.opened →
        sendFramePipeline sStart sNow = false) := by
  constructor
  · intro s1 s2 h
    rw [sendFramePipeline, Bool.and_eq_true] at h
    have h2 := h.2
    rw [arrayBufferResolved] at h2
    simpa using h2
  · intro s1 s2 h
    rw [sendFramePipeline]
    have h2 : arrayBufferResolved s2 = false := by
      rw [arrayBufferResolved]
      simpa using h
    simp [h2]

/-- Witness for C10: a socket open at invocation but closed by the time
the conversion resolves — no write happens. -/
theorem send_rechecks_open_witness :
    sendFramePipeline sOpenEx sClosedIdle = false :=
  send_rechecks_open_after_conversion.2 sOpenEx sClosedIdle (by decide)
